import Mathlib

/-!
Shallow embedding of the vaccination-recommendation engine from
`src/components/VaccinationResults.tsx` and of the form state machine from
`src/components/VaccinationForm.tsx`, together with proofs of the spec claims.

Conventions of the embedding:
* TypeScript `parseInt(data.age)` yields `NaN` on an unparseable string; we
  model the parsed age as `Option Int` (`none` = NaN) and every numeric
  comparison against `NaN` is `false` (`nanGE`, `nanLE`, `nanLT`).
* `String.prototype.toLowerCase` is modelled by `toLowerJS`, the map of
  `Char.toLower` over the characters; the two agree on the ASCII strings
  occurring in this program.
* `String.prototype.includes` is the contiguous-substring test `strIncludes`.
* `Array.prototype.sort` with the comparator
  `priorityOrder[a.priority] - priorityOrder[b.priority]` is, per ES2019, a
  stable sort by the rank `priorityOrder`; it is modelled by the stable
  `List.insertionSort` with the relation `rank a ≤ rank b`.
-/

/-- The `VaccinationData` record (`VaccinationResults.tsx`, lines 7-13). -/
structure VaccinationData where
  age : String
  knownHistory : Bool
  completedVaccines : List String
  riskFactors : List String
  occupation : String
deriving DecidableEq, Repr

/-- The `'high' | 'medium' | 'low'` priority union (`VaccinationResults.tsx`, line 17). -/
inductive Priority where
  | high
  | medium
  | low
deriving DecidableEq, Repr

/-- The `VaccineRec` record (`VaccinationResults.tsx`, lines 15-21). -/
structure VaccineRec where
  vaccine : String
  priority : Priority
  reason : String
  ageRange : Option String := none
  notes : Option String := none
deriving DecidableEq, Repr

/-- Leading decimal digits of a character list (the maximal digit run). -/
def takeDigits : List Char → List Char
  | [] => []
  | c :: cs => if c.isDigit then c :: takeDigits cs else []

/-- Numeric value of a digit run. -/
def digitsVal (ds : List Char) : Nat :=
  ds.foldl (fun acc c => acc * 10 + (c.toNat - 48)) 0

/-- Model of the JS builtin `parseInt(s)` on decimal input: skip leading
whitespace, read an optional sign and then the maximal run of decimal digits;
`none` models the `NaN` result when no digit is found.  (The hexadecimal
`0x` special case of `parseInt` is not modelled; the form feeds this
function from a numeric input field.) -/
def parseIntJS (s : String) : Option Int :=
  let cs := s.data.dropWhile (fun c => c.isWhitespace)
  match cs with
  | '-' :: t =>
      let ds := takeDigits t
      if ds.isEmpty then none else some (-(digitsVal ds : Int))
  | '+' :: t =>
      let ds := takeDigits t
      if ds.isEmpty then none else some (digitsVal ds : Int)
  | t =>
      let ds := takeDigits t
      if ds.isEmpty then none else some (digitsVal ds : Int)

/-- JS `age >= n` where `age` may be `NaN` (`none`): a comparison against
`NaN` is `false`. -/
def nanGE (a : Option Int) (n : Int) : Bool :=
  match a with
  | none => false
  | some v => n ≤ v

/-- JS `age <= n` where `age` may be `NaN`. -/
def nanLE (a : Option Int) (n : Int) : Bool :=
  match a with
  | none => false
  | some v => v ≤ n

/-- JS `age < n` where `age` may be `NaN`. -/
def nanLT (a : Option Int) (n : Int) : Bool :=
  match a with
  | none => false
  | some v => v < n

/-- Does `n` occur at the head of `h`?  (Character-list matching step of the
substring test.) -/
def beginsWith : List Char → List Char → Bool
  | [], _ => true
  | _ :: _, [] => false
  | a :: as, b :: bs => a == b && beginsWith as bs

/-- Scan of all suffixes used by the substring test. -/
def includesAux (n : List Char) : List Char → Bool
  | [] => beginsWith n []
  | h :: t => beginsWith n (h :: t) || includesAux n t

/-- Model of JS `hay.includes(needle)`: contiguous-substring containment. -/
def strIncludes (hay needle : String) : Bool :=
  includesAux needle.data hay.data

/-- Model of JS `s.toLowerCase()`: lower each character (ASCII lowering,
which is all `Char.toLower` performs and all this program's strings need). -/
def toLowerJS (s : String) : String :=
  ⟨s.data.map Char.toLower⟩

/-- The `isCompleted` helper (`VaccinationResults.tsx`, lines 35-36):
`completedVaccines.some(v => v.toLowerCase().includes(vaccine.toLowerCase()))`. -/
def isCompleted (completedVaccines : List String) (vaccine : String) : Bool :=
  completedVaccines.any fun v => strIncludes (toLowerJS v) (toLowerJS vaccine)

/-- Rule 1 output (lines 41-47): pneumococcal for age ≥ 65. -/
def pneumococcal65Rec : VaccineRec :=
  { vaccine := "Pneumococcal (PPSV23 and PCV13)"
    priority := Priority.high
    reason := "Recommended for all adults 65 and older"
    ageRange := some "65+"
    notes := some "Protects against pneumonia and other serious infections" }

/-- Rule 2 output (lines 51-57): shingles for age ≥ 65, annotated "60+". -/
def shinglesRec : VaccineRec :=
  { vaccine := "Shingles (Zoster)"
    priority := Priority.high
    reason := "Recommended for all adults 60 and older"
    ageRange := some "60+"
    notes := some "Two doses, 2-6 months apart" }

/-- Rule 3 output (lines 63-68): Tdap. -/
def tdapRec : VaccineRec :=
  { vaccine := "Tdap (Tetanus, Diphtheria, Pertussis)"
    priority := Priority.high
    reason := "Required every 10 years for all adults"
    notes := some "Protects against tetanus, diphtheria, and whooping cough" }

/-- Rule 4 output (lines 73-79): HPV for age ≤ 26. -/
def hpvRec : VaccineRec :=
  { vaccine := "HPV (Human Papillomavirus)"
    priority := Priority.high
    reason := "Recommended for adults up to age 26"
    ageRange := some "9-26"
    notes := some "Protects against cancer-causing HPV" }

/-- Rule 5 output (lines 84-89): MMR. -/
def mmrRec : VaccineRec :=
  { vaccine := "MMR (Measles, Mumps, Rubella)"
    priority := Priority.medium
    reason := "Recommended for adults without evidence of immunity"
    notes := some "Especially important for international travel" }

/-- Rule 6 output (lines 94-99): hepatitis B, unconditional. -/
def hepatitisBRec : VaccineRec :=
  { vaccine := "Hepatitis B"
    priority := Priority.medium
    reason := "Recommended for all unvaccinated adults"
    notes := some "Three-dose series" }

/-- Rule 7 output (lines 104-109): influenza. -/
def influenzaRec : VaccineRec :=
  { vaccine := "Influenza (Flu)"
    priority := Priority.high
    reason := "Recommended annually for all adults"
    notes := some "Get updated vaccine each year" }

/-- Rule 8 output (lines 113-118): COVID-19. -/
def covidRec : VaccineRec :=
  { vaccine := "COVID-19"
    priority := Priority.high
    reason := "Stay up to date with COVID-19 vaccination"
    notes := some "Follow current CDC recommendations for boosters" }

/-- Rule 9 output (lines 125-130): risk-factor pneumococcal for age < 65. -/
def pneumococcalRiskRec : VaccineRec :=
  { vaccine := "Pneumococcal"
    priority := Priority.high
    reason := "Recommended due to high-risk medical conditions"
    notes := some "Important protection against serious bacterial infections" }

/-- Rule 10 output, first entry (lines 136-141): hepatitis B for healthcare workers. -/
def hepatitisBHealthcareRec : VaccineRec :=
  { vaccine := "Hepatitis B"
    priority := Priority.high
    reason := "Required for healthcare workers"
    notes := some "Occupational exposure protection" }

/-- Rule 10 output, second entry (lines 144-149): varicella for healthcare workers. -/
def varicellaRec : VaccineRec :=
  { vaccine := "Varicella (Chickenpox)"
    priority := Priority.high
    reason := "Required for healthcare workers without immunity"
    notes := some "Two doses if no history of chickenpox" }

/-- Rule 11 output (lines 155-160): hepatitis A for international travellers. -/
def hepatitisARec : VaccineRec :=
  { vaccine := "Hepatitis A"
    priority := Priority.medium
    reason := "Recommended for international travelers"
    notes := some "Two doses, 6-12 months apart" }

/-- Rule 12 output (lines 166-172): meningococcal for college students. -/
def meningococcalRec : VaccineRec :=
  { vaccine := "Meningococcal"
    priority := Priority.high
    reason := "Recommended for college students"
    ageRange := some "16-23"
    notes := some "Protects against meningitis" }

/-- A conditional `recommendations.push(r)`: the singleton when the guard
holds, nothing otherwise. -/
def pushIf (c : Bool) (r : VaccineRec) : List VaccineRec :=
  if c then [r] else []

/-- A conditional block of pushes (an `if` statement with several pushes in
its body and no `else`). -/
def guardL (c : Bool) (l : List VaccineRec) : List VaccineRec :=
  if c then l else []

/-- The list `recommendations` built by `getVaccinationRecommendations`
(`VaccinationResults.tsx`, lines 30-174) before the final sort, with the
rules in source order. -/
def recsBeforeSort (data : VaccinationData) : List VaccineRec :=
  let age := parseIntJS data.age
  let isC := isCompleted data.completedVaccines
  guardL (nanGE age 65)
      (pushIf (!(isC "pneumococcal")) pneumococcal65Rec ++
       pushIf (!(isC "shingles")) shinglesRec) ++
  pushIf (!(isC "dtap") && !(isC "tdap")) tdapRec ++
  pushIf (nanLE age 26 && !(isC "hpv")) hpvRec ++
  pushIf (!(isC "mmr") && (nanLT age 65 || !data.knownHistory)) mmrRec ++
  pushIf (!(isC "hepatitis b")) hepatitisBRec ++
  pushIf (!(isC "influenza")) influenzaRec ++
  pushIf (!(isC "covid-19")) covidRec ++
  guardL (data.riskFactors.contains "Immunocompromised" ||
          data.riskFactors.contains "Chronic heart disease" ||
          data.riskFactors.contains "Chronic lung disease" ||
          data.riskFactors.contains "Diabetes")
      (pushIf (!(isC "pneumococcal") && nanLT age 65) pneumococcalRiskRec) ++
  guardL (data.riskFactors.contains "Healthcare worker")
      (pushIf (!(isC "hepatitis b")) hepatitisBHealthcareRec ++
       pushIf (!(isC "varicella")) varicellaRec) ++
  guardL (data.riskFactors.contains "International travel")
      (pushIf (!(isC "hepatitis a")) hepatitisARec) ++
  guardL (data.riskFactors.contains "College student")
      (pushIf (!(isC "meningococcal")) meningococcalRec)

/-- The numeric rank `priorityOrder = { high: 0, medium: 1, low: 2 }`
(`VaccinationResults.tsx`, line 177). -/
def priorityOrder : Priority → Nat
  | Priority.high => 0
  | Priority.medium => 1
  | Priority.low => 2

/-- The final `recommendations.sort((a, b) => priorityOrder[a.priority] -
priorityOrder[b.priority])` (lines 176-179).  ES2019 `Array.prototype.sort`
is stable, and with this consistent comparator it sorts ascending by rank;
modelled by the stable insertion sort on the rank order. -/
def sortRecs (l : List VaccineRec) : List VaccineRec :=
  l.insertionSort fun a b => priorityOrder a.priority ≤ priorityOrder b.priority

/-- The full recommendation engine `getVaccinationRecommendations`
(`VaccinationResults.tsx`, lines 29-180). -/
def getVaccinationRecommendations (data : VaccinationData) : List VaccineRec :=
  sortRecs (recsBeforeSort data)

/-! ### Helper lemmas about the engine -/

theorem mem_pushIf {c : Bool} {r x : VaccineRec} : x ∈ pushIf c r ↔ c = true ∧ x = r := by
  cases c <;> simp [pushIf]

theorem mem_guardL {c : Bool} {l : List VaccineRec} {x : VaccineRec} :
    x ∈ guardL c l ↔ c = true ∧ x ∈ l := by
  cases c <;> simp [guardL]

theorem orderedInsert_append_of_not {α : Type} {r : α → α → Prop} [DecidableRel r] (a : α)
    (l1 l2 : List α) (h : ∀ b ∈ l1, ¬ r a b) :
    List.orderedInsert r a (l1 ++ l2) = l1 ++ List.orderedInsert r a l2 := by
  induction l1 with
  | nil => rfl
  | cons b t ih =>
      show List.orderedInsert r a (b :: (t ++ l2)) = _
      simp only [List.orderedInsert]
      rw [if_neg (h b (by simp))]
      show b :: List.orderedInsert r a (t ++ l2) = _
      rw [ih (fun x hx => h x (by simp [hx]))]
      rfl

theorem orderedInsert_of_forall {α : Type} {r : α → α → Prop} [DecidableRel r] (a : α)
    (l : List α) (h : ∀ b ∈ l, r a b) :
    List.orderedInsert r a l = a :: l := by
  cases l with
  | nil => rfl
  | cons b t => simp only [List.orderedInsert]; rw [if_pos (h b (by simp))]

/-- The sublist of `l` holding the entries of priority `p`, in order. -/
def prioFilter (p : Priority) (l : List VaccineRec) : List VaccineRec :=
  l.filter fun r => r.priority == p

theorem mem_prioFilter {p : Priority} {l : List VaccineRec} {r : VaccineRec}
    (h : r ∈ prioFilter p l) : r.priority = p := by
  have := List.of_mem_filter h
  simpa using this

/-- The stable sort by rank is the concatenation of the three priority
classes, each in original order. -/
theorem sortRecs_eq (l : List VaccineRec) :
    sortRecs l = prioFilter Priority.high l ++ prioFilter Priority.medium l ++
      prioFilter Priority.low l := by
  induction l with
  | nil => rfl
  | cons a t ih =>
      show List.orderedInsert _ a (sortRecs t) = _
      rw [ih]
      cases hp : a.priority with
      | high =>
          rw [orderedInsert_of_forall a _ (fun b _ => by simp [hp, priorityOrder])]
          simp [prioFilter, List.filter_cons, hp, List.append_assoc]
      | medium =>
          rw [List.append_assoc]
          rw [orderedInsert_append_of_not a _ _
              (fun b hb => by simp [hp, mem_prioFilter hb, priorityOrder])]
          rw [orderedInsert_of_forall a _
              (fun b hb => by
                rcases List.mem_append.1 hb with hb | hb <;>
                  simp [hp, mem_prioFilter hb, priorityOrder])]
          simp [prioFilter, List.filter_cons, hp, List.append_assoc]
      | low =>
          rw [orderedInsert_append_of_not a _ _
              (fun b hb => by
                rcases List.mem_append.1 hb with hb | hb <;>
                  simp [hp, mem_prioFilter hb, priorityOrder])]
          rw [orderedInsert_of_forall a _
              (fun b hb => by simp [hp, mem_prioFilter hb, priorityOrder])]
          simp [prioFilter, List.filter_cons, hp]

/-- Membership in the pre-sort rule output, rule by rule. -/
theorem mem_recsBeforeSort {d : VaccinationData} {r : VaccineRec} :
    r ∈ recsBeforeSort d ↔
      (nanGE (parseIntJS d.age) 65 = true ∧
        isCompleted d.completedVaccines "pneumococcal" = false ∧ r = pneumococcal65Rec) ∨
      (nanGE (parseIntJS d.age) 65 = true ∧
        isCompleted d.completedVaccines "shingles" = false ∧ r = shinglesRec) ∨
      (isCompleted d.completedVaccines "dtap" = false ∧
        isCompleted d.completedVaccines "tdap" = false ∧ r = tdapRec) ∨
      (nanLE (parseIntJS d.age) 26 = true ∧
        isCompleted d.completedVaccines "hpv" = false ∧ r = hpvRec) ∨
      (isCompleted d.completedVaccines "mmr" = false ∧
        (nanLT (parseIntJS d.age) 65 = true ∨ d.knownHistory = false) ∧ r = mmrRec) ∨
      (isCompleted d.completedVaccines "hepatitis b" = false ∧ r = hepatitisBRec) ∨
      (isCompleted d.completedVaccines "influenza" = false ∧ r = influenzaRec) ∨
      (isCompleted d.completedVaccines "covid-19" = false ∧ r = covidRec) ∨
      ((d.riskFactors.contains "Immunocompromised" = true ∨
          d.riskFactors.contains "Chronic heart disease" = true ∨
          d.riskFactors.contains "Chronic lung disease" = true ∨
          d.riskFactors.contains "Diabetes" = true) ∧
        isCompleted d.completedVaccines "pneumococcal" = false ∧
        nanLT (parseIntJS d.age) 65 = true ∧ r = pneumococcalRiskRec) ∨
      (d.riskFactors.contains "Healthcare worker" = true ∧
        isCompleted d.completedVaccines "hepatitis b" = false ∧ r = hepatitisBHealthcareRec) ∨
      (d.riskFactors.contains "Healthcare worker" = true ∧
        isCompleted d.completedVaccines "varicella" = false ∧ r = varicellaRec) ∨
      (d.riskFactors.contains "International travel" = true ∧
        isCompleted d.completedVaccines "hepatitis a" = false ∧ r = hepatitisARec) ∨
      (d.riskFactors.contains "College student" = true ∧
        isCompleted d.completedVaccines "meningococcal" = false ∧ r = meningococcalRec) := by
  simp only [recsBeforeSort, List.mem_append, mem_guardL, mem_pushIf, Bool.not_eq_true',
    Bool.and_eq_true, Bool.or_eq_true, and_or_left, or_and_right, or_assoc, and_assoc]

theorem mem_sortRecs {l : List VaccineRec} {r : VaccineRec} : r ∈ sortRecs l ↔ r ∈ l :=
  List.mem_insertionSort _

/-- Membership in the engine output coincides with membership in the rule
output (sorting permutes). -/
theorem mem_getRecs {d : VaccinationData} {r : VaccineRec} :
    r ∈ getVaccinationRecommendations d ↔ r ∈ recsBeforeSort d :=
  mem_sortRecs

theorem prioFilter_prioFilter_self (p : Priority) (l : List VaccineRec) :
    prioFilter p (prioFilter p l) = prioFilter p l :=
  List.filter_eq_self.2 fun a ha => by simp [mem_prioFilter ha]

theorem prioFilter_prioFilter_ne {p q : Priority} (h : q ≠ p) (l : List VaccineRec) :
    prioFilter p (prioFilter q l) = [] :=
  List.filter_eq_nil_iff.2 fun a ha => by simp [mem_prioFilter ha, h]

theorem prioFilter_sortRecs (p : Priority) (l : List VaccineRec) :
    prioFilter p (sortRecs l) = prioFilter p l := by
  have hA : ∀ l1 l2 : List VaccineRec,
      prioFilter p (l1 ++ l2) = prioFilter p l1 ++ prioFilter p l2 :=
    fun l1 l2 => List.filter_append l1 l2
  rw [sortRecs_eq, hA, hA]
  cases p <;>
    simp [prioFilter_prioFilter_self, prioFilter_prioFilter_ne]

theorem pairwise_rank_sortRecs (l : List VaccineRec) :
    (sortRecs l).Pairwise
      (fun a b => priorityOrder a.priority ≤ priorityOrder b.priority) := by
  rw [sortRecs_eq]
  refine List.pairwise_append.2 ⟨List.pairwise_append.2 ⟨?_, ?_, ?_⟩, ?_, ?_⟩
  · exact List.pairwise_of_forall_mem_list fun a ha b hb => by
      simp [mem_prioFilter ha, mem_prioFilter hb]
  · exact List.pairwise_of_forall_mem_list fun a ha b hb => by
      simp [mem_prioFilter ha, mem_prioFilter hb]
  · intro a ha b hb
    simp [mem_prioFilter ha, mem_prioFilter hb, priorityOrder]
  · exact List.pairwise_of_forall_mem_list fun a ha b hb => by
      simp [mem_prioFilter ha, mem_prioFilter hb]
  · intro a ha b hb
    rcases List.mem_append.1 ha with ha | ha <;>
      simp [mem_prioFilter ha, mem_prioFilter hb, priorityOrder]

theorem beginsWith_iff (n h : List Char) : beginsWith n h = true ↔ n <+: h := by
  induction n generalizing h with
  | nil => simp [beginsWith]
  | cons a as ih =>
      cases h with
      | nil => simp [beginsWith]
      | cons b bs => simp [beginsWith, ih, List.cons_prefix_cons]

theorem includesAux_iff (n h : List Char) : includesAux n h = true ↔ n <:+: h := by
  induction h with
  | nil => simp [includesAux, beginsWith_iff, List.infix_nil, List.prefix_nil]
  | cons c t ih => simp [includesAux, beginsWith_iff, ih, List.infix_cons_iff]

theorem strIncludes_iff (hay needle : String) :
    strIncludes hay needle = true ↔ needle.data <:+: hay.data :=
  includesAux_iff _ _

/-! ### Sample profiles used as concrete witnesses -/

/-- A profile whose age string does not parse to a number. -/
def sampleNaN : VaccinationData :=
  { age := "unknown", knownHistory := true, completedVaccines := [],
    riskFactors := [], occupation := "" }

/-- The spec's healthcare-worker scenario profile (§8). -/
def sampleHW : VaccinationData :=
  { age := "30", knownHistory := false, completedVaccines := [],
    riskFactors := ["Healthcare worker"], occupation := "healthcare" }

/-- A 65-year-old with empty vaccination history. -/
def sample65 : VaccinationData :=
  { age := "65", knownHistory := true, completedVaccines := [],
    riskFactors := [], occupation := "" }

/-- A 64-year-old diabetic with empty vaccination history. -/
def sample64D : VaccinationData :=
  { age := "64", knownHistory := true, completedVaccines := [],
    riskFactors := ["Diabetes"], occupation := "" }

/-- A 70-year-old with empty vaccination history. -/
def sample70 : VaccinationData :=
  { age := "70", knownHistory := true, completedVaccines := [],
    riskFactors := [], occupation := "" }

/-- The spec's combination-entry profile (§8, substring-match pitfall). -/
def comboProfile : VaccinationData :=
  { age := "30", knownHistory := true, completedVaccines := ["Hepatitis A and B combo"],
    riskFactors := ["Healthcare worker"], occupation := "" }

/-! ### The claims -/

/-- C1: for every profile the engine output is a stable sort by priority
rank (high=0, medium=1, low=2): ranks are pairwise nondecreasing along the
output (so no medium-priority entry precedes a high-priority one), and for
each priority class the output subsequence equals the pre-sort
rule-evaluation subsequence, i.e. original rule order is preserved. -/
theorem recommend_stable_sorted (d : VaccinationData) :
    (getVaccinationRecommendations d).Pairwise
      (fun a b => priorityOrder a.priority ≤ priorityOrder b.priority) ∧
    ∀ p : Priority,
      (getVaccinationRecommendations d).filter (fun r => r.priority == p) =
        (recsBeforeSort d).filter (fun r => r.priority == p) :=
  ⟨pairwise_rank_sortRecs _, fun p => prioFilter_sortRecs p (recsBeforeSort d)⟩

/-- C3: `isCompleted` returns true iff some completed-vaccine entry,
lowercased, contains the lowercased keyword as a contiguous substring. -/
theorem isCompleted_iff (cv : List String) (k : String) :
    isCompleted cv k = true ↔
      ∃ v ∈ cv, (toLowerJS k).data <:+: (toLowerJS v).data := by
  simp [isCompleted, strIncludes_iff, List.any_eq_true]

/-- C2: the engine is total by construction, and an unparseable age makes
every age comparison false, so no age-gated rule fires through its age
condition: the two age-65 rules, the risk-factor pneumococcal rule and the
HPV rule produce nothing, and the MMR rule can fire only through its
`!knownHistory` disjunct. -/
theorem recommend_total_nan_age (d : VaccinationData)
    (h : parseIntJS d.age = none) :
    nanGE (parseIntJS d.age) 65 = false ∧
    nanLE (parseIntJS d.age) 26 = false ∧
    nanLT (parseIntJS d.age) 65 = false ∧
    ∀ r ∈ getVaccinationRecommendations d,
      r ≠ pneumococcal65Rec ∧ r ≠ shinglesRec ∧ r ≠ hpvRec ∧ r ≠ pneumococcalRiskRec ∧
      (r = mmrRec → d.knownHistory = false) := by
  refine ⟨by simp [h, nanGE], by simp [h, nanLE], by simp [h, nanLT], ?_⟩
  intro r hr
  rw [mem_getRecs, mem_recsBeforeSort] at hr
  simp only [h, nanGE, nanLE, nanLT, false_and, and_false, false_or, or_false,
    false_iff, Bool.false_eq_true] at hr
  rcases hr with ⟨h1, h2, rfl⟩ | ⟨h1, hkh, rfl⟩ | ⟨h1, rfl⟩ | ⟨h1, rfl⟩ | ⟨h1, rfl⟩ |
    ⟨h1, h2, rfl⟩ | ⟨h1, h2, rfl⟩ | ⟨h1, h2, rfl⟩ | ⟨h1, h2, rfl⟩
  case _ => exact ⟨by decide, by decide, by decide, by decide, fun hEq => absurd hEq (by decide)⟩
  case _ => exact ⟨by decide, by decide, by decide, by decide, fun _ => hkh⟩
  all_goals exact ⟨by decide, by decide, by decide, by decide, fun hEq => absurd hEq (by decide)⟩

/-- C2 witness: at a concrete unparseable age the comparisons are false and
the Tdap entry (a member of the output) is none of the age-gated records. -/
theorem recommend_total_nan_age_witness :
    parseIntJS sampleNaN.age = none ∧
    nanGE (parseIntJS sampleNaN.age) 65 = false ∧
    tdapRec ≠ pneumococcal65Rec :=
  ⟨rfl, (recommend_total_nan_age sampleNaN rfl).1,
    ((recommend_total_nan_age sampleNaN rfl).2.2.2 tdapRec (by decide)).1⟩

/-- C4 counterexample: with completedVaccines = ["Hepatitis A and B combo"],
the "hepatitis b" keyword is NOT treated as completed ("hepatitis b" is not
a contiguous substring of "hepatitis a and b combo"), and the unconditional
hepatitis B rule does fire. -/
theorem hepatitis_combo_counterexample :
    isCompleted ["Hepatitis A and B combo"] "hepatitis b" = false ∧
    hepatitisBRec ∈ getVaccinationRecommendations comboProfile := by
  refine ⟨by decide, ?_⟩
  rw [mem_getRecs, mem_recsBeforeSort]
  exact Or.inr (Or.inr (Or.inr (Or.inr (Or.inr (Or.inl ⟨by decide, rfl⟩)))))

/-- C4 amended: with completedVaccines = ["Hepatitis A and B combo"], the
case-fold substring check treats "hepatitis a" as completed but NOT
"hepatitis b"; hence the hepatitis A rule never fires while the
unconditional hepatitis B rule does fire, as does the healthcare-worker
hepatitis B rule when that risk factor is present. -/
theorem hepatitis_combo_amended (d : VaccinationData)
    (h : d.completedVaccines = ["Hepatitis A and B combo"]) :
    isCompleted d.completedVaccines "hepatitis a" = true ∧
    isCompleted d.completedVaccines "hepatitis b" = false ∧
    (∀ r ∈ getVaccinationRecommendations d, r ≠ hepatitisARec) ∧
    hepatitisBRec ∈ getVaccinationRecommendations d ∧
    (d.riskFactors.contains "Healthcare worker" = true →
      hepatitisBHealthcareRec ∈ getVaccinationRecommendations d) := by
  have ha : isCompleted d.completedVaccines "hepatitis a" = true := by rw [h]; decide
  have hb : isCompleted d.completedVaccines "hepatitis b" = false := by rw [h]; decide
  refine ⟨ha, hb, ?_, ?_, ?_⟩
  · intro r hr
    rw [mem_getRecs, mem_recsBeforeSort] at hr
    rcases hr with ⟨h1, h2, rfl⟩ | ⟨h1, h2, rfl⟩ | ⟨h1, h2, rfl⟩ | ⟨h1, h2, rfl⟩ |
      ⟨h1, h2, rfl⟩ | ⟨h1, rfl⟩ | ⟨h1, rfl⟩ | ⟨h1, rfl⟩ | ⟨h1, h2, h3, rfl⟩ |
      ⟨h1, h2, rfl⟩ | ⟨h1, h2, rfl⟩ | ⟨h1, h2, rfl⟩ | ⟨h1, h2, rfl⟩
    all_goals first | decide | simp [ha] at h2
  · rw [mem_getRecs, mem_recsBeforeSort]
    exact Or.inr (Or.inr (Or.inr (Or.inr (Or.inr (Or.inl ⟨hb, rfl⟩)))))
  · intro hw
    rw [mem_getRecs, mem_recsBeforeSort]
    exact Or.inr (Or.inr (Or.inr (Or.inr (Or.inr (Or.inr (Or.inr (Or.inr (Or.inr
      (Or.inl ⟨hw, hb, rfl⟩)))))))))

/-- C4 amended witness at the concrete combination profile. -/
theorem hepatitis_combo_amended_witness :
    comboProfile.completedVaccines = ["Hepatitis A and B combo"] ∧
    isCompleted comboProfile.completedVaccines "hepatitis a" = true ∧
    isCompleted comboProfile.completedVaccines "hepatitis b" = false ∧
    hepatitisBRec ∈ getVaccinationRecommendations comboProfile ∧
    hepatitisBHealthcareRec ∈ getVaccinationRecommendations comboProfile :=
  ⟨rfl, (hepatitis_combo_amended comboProfile rfl).1,
    (hepatitis_combo_amended comboProfile rfl).2.1,
    (hepatitis_combo_amended comboProfile rfl).2.2.2.1,
    (hepatitis_combo_amended comboProfile rfl).2.2.2.2 rfl⟩

/-- C5: a numeric age ≥ 65 with shingles not completed puts the literal
shingles record in the output, whose text annotation is "60+" although the
gate is age ≥ 65; a numeric age < 65 yields no shingles entry at all. -/
theorem shingles_sixty_note (d : VaccinationData) :
    (nanGE (parseIntJS d.age) 65 = true →
      isCompleted d.completedVaccines "shingles" = false →
      shinglesRec ∈ getVaccinationRecommendations d) ∧
    shinglesRec.vaccine = "Shingles (Zoster)" ∧
    shinglesRec.priority = Priority.high ∧
    shinglesRec.ageRange = some "60+" ∧
    (∀ v : Int, parseIntJS d.age = some v → v < 65 →
      ∀ r ∈ getVaccinationRecommendations d, r.vaccine ≠ "Shingles (Zoster)") := by
  refine ⟨?_, rfl, rfl, rfl, ?_⟩
  · intro h65 hsh
    rw [mem_getRecs, mem_recsBeforeSort]
    exact Or.inr (Or.inl ⟨h65, hsh, rfl⟩)
  · intro v hv hlt r hr
    rw [mem_getRecs, mem_recsBeforeSort] at hr
    simp only [hv, nanGE, nanLE, nanLT, decide_eq_true_eq] at hr
    rcases hr with ⟨h1, h2, rfl⟩ | ⟨h1, h2, rfl⟩ | ⟨h1, h2, rfl⟩ | ⟨h1, h2, rfl⟩ |
      ⟨h1, h2, rfl⟩ | ⟨h1, rfl⟩ | ⟨h1, rfl⟩ | ⟨h1, rfl⟩ | ⟨h1, h2, h3, rfl⟩ |
      ⟨h1, h2, rfl⟩ | ⟨h1, h2, rfl⟩ | ⟨h1, h2, rfl⟩ | ⟨h1, h2, rfl⟩
    all_goals first | omega | decide

/-- C5 witness: at age 70 the shingles record is in the output; at age 30
the Tdap entry of the output is not a shingles entry. -/
theorem shingles_sixty_note_witness :
    nanGE (parseIntJS sample70.age) 65 = true ∧
    isCompleted sample70.completedVaccines "shingles" = false ∧
    shinglesRec ∈ getVaccinationRecommendations sample70 ∧
    tdapRec.vaccine ≠ "Shingles (Zoster)" :=
  ⟨by decide, rfl,
    (shingles_sixty_note sample70).1 (by decide) rfl,
    (shingles_sixty_note sampleHW).2.2.2.2 30 rfl (by decide) tdapRec
      (mem_getRecs.2 (mem_recsBeforeSort.2 (Or.inr (Or.inr (Or.inl ⟨rfl, rfl, rfl⟩)))))⟩

/-- C6: no deduplication across rules: a healthcare worker without
hepatitis B completed gets two distinct Hepatitis B entries, the medium
unconditional one and the high healthcare-worker one. -/
theorem hepatitisB_no_dedup (d : VaccinationData)
    (hw : d.riskFactors.contains "Healthcare worker" = true)
    (hb : isCompleted d.completedVaccines "hepatitis b" = false) :
    hepatitisBRec ∈ getVaccinationRecommendations d ∧
    hepatitisBHealthcareRec ∈ getVaccinationRecommendations d ∧
    hepatitisBRec ≠ hepatitisBHealthcareRec ∧
    hepatitisBRec.vaccine = "Hepatitis B" ∧ hepatitisBRec.priority = Priority.medium ∧
    hepatitisBHealthcareRec.vaccine = "Hepatitis B" ∧
    hepatitisBHealthcareRec.priority = Priority.high := by
  refine ⟨?_, ?_, by decide, rfl, rfl, rfl, rfl⟩
  · rw [mem_getRecs, mem_recsBeforeSort]
    exact Or.inr (Or.inr (Or.inr (Or.inr (Or.inr (Or.inl ⟨hb, rfl⟩)))))
  · rw [mem_getRecs, mem_recsBeforeSort]
    exact Or.inr (Or.inr (Or.inr (Or.inr (Or.inr (Or.inr (Or.inr (Or.inr (Or.inr
      (Or.inl ⟨hw, hb, rfl⟩)))))))))

/-- C6 witness at the concrete healthcare-worker profile. -/
theorem hepatitisB_no_dedup_witness :
    sampleHW.riskFactors.contains "Healthcare worker" = true ∧
    isCompleted sampleHW.completedVaccines "hepatitis b" = false ∧
    hepatitisBRec ∈ getVaccinationRecommendations sampleHW ∧
    hepatitisBHealthcareRec ∈ getVaccinationRecommendations sampleHW :=
  ⟨rfl, rfl, (hepatitisB_no_dedup sampleHW rfl rfl).1,
    (hepatitisB_no_dedup sampleHW rfl rfl).2.1⟩

/-- C7: at parsed age 65 with empty history, both the pneumococcal record
(annotated "65+") and the shingles record (annotated "60+") are in the
output; at parsed age 64 with empty history neither is, but the risk-factor
pneumococcal record is produced when a qualifying risk factor is present. -/
theorem age_boundary_sixtyfive (d : VaccinationData) :
    (parseIntJS d.age = some 65 → d.completedVaccines = [] →
      pneumococcal65Rec ∈ getVaccinationRecommendations d ∧
      shinglesRec ∈ getVaccinationRecommendations d) ∧
    pneumococcal65Rec.ageRange = some "65+" ∧ pneumococcal65Rec.priority = Priority.high ∧
    shinglesRec.ageRange = some "60+" ∧ shinglesRec.priority = Priority.high ∧
    (parseIntJS d.age = some 64 → d.completedVaccines = [] →
      (∀ r ∈ getVaccinationRecommendations d, r ≠ pneumococcal65Rec ∧ r ≠ shinglesRec) ∧
      ((d.riskFactors.contains "Immunocompromised" = true ∨
        d.riskFactors.contains "Chronic heart disease" = true ∨
        d.riskFactors.contains "Chronic lung disease" = true ∨
        d.riskFactors.contains "Diabetes" = true) →
        pneumococcalRiskRec ∈ getVaccinationRecommendations d)) := by
  refine ⟨?_, rfl, rfl, rfl, rfl, ?_⟩
  · intro hv hc
    have h65 : nanGE (parseIntJS d.age) 65 = true := by rw [hv]; decide
    have hp : isCompleted d.completedVaccines "pneumococcal" = false := by rw [hc]; rfl
    have hs : isCompleted d.completedVaccines "shingles" = false := by rw [hc]; rfl
    constructor
    · rw [mem_getRecs, mem_recsBeforeSort]
      exact Or.inl ⟨h65, hp, rfl⟩
    · rw [mem_getRecs, mem_recsBeforeSort]
      exact Or.inr (Or.inl ⟨h65, hs, rfl⟩)
  · intro hv hc
    constructor
    · intro r hr
      rw [mem_getRecs, mem_recsBeforeSort] at hr
      simp only [hv, nanGE, nanLE, nanLT, decide_eq_true_eq] at hr
      rcases hr with ⟨h1, h2, rfl⟩ | ⟨h1, h2, rfl⟩ | ⟨h1, h2, rfl⟩ | ⟨h1, h2, rfl⟩ |
        ⟨h1, h2, rfl⟩ | ⟨h1, rfl⟩ | ⟨h1, rfl⟩ | ⟨h1, rfl⟩ | ⟨h1, h2, h3, rfl⟩ |
        ⟨h1, h2, rfl⟩ | ⟨h1, h2, rfl⟩ | ⟨h1, h2, rfl⟩ | ⟨h1, h2, rfl⟩
      all_goals first | omega | exact ⟨by decide, by decide⟩
    · intro hrisk
      have hp : isCompleted d.completedVaccines "pneumococcal" = false := by rw [hc]; rfl
      have hlt : nanLT (parseIntJS d.age) 65 = true := by rw [hv]; decide
      rw [mem_getRecs, mem_recsBeforeSort]
      exact Or.inr (Or.inr (Or.inr (Or.inr (Or.inr (Or.inr (Or.inr (Or.inr
        (Or.inl ⟨hrisk, hp, hlt, rfl⟩))))))))

/-- C7 witness: ages 65 and 64 (with Diabetes) at concrete profiles. -/
theorem age_boundary_sixtyfive_witness :
    parseIntJS sample65.age = some 65 ∧ sample65.completedVaccines = [] ∧
    parseIntJS sample64D.age = some 64 ∧
    pneumococcal65Rec ∈ getVaccinationRecommendations sample65 ∧
    shinglesRec ∈ getVaccinationRecommendations sample65 ∧
    pneumococcalRiskRec ∈ getVaccinationRecommendations sample64D :=
  ⟨rfl, rfl, rfl,
    ((age_boundary_sixtyfive sample65).1 rfl rfl).1,
    ((age_boundary_sixtyfive sample65).1 rfl rfl).2,
    ((age_boundary_sixtyfive sample64D).2.2.2.2.2 rfl rfl).2 (Or.inr (Or.inr (Or.inr rfl)))⟩

/-- C8: no rule produces a low-priority entry: every member of every
output has priority high or medium, never low. -/
theorem no_low_priority (d : VaccinationData) :
    ∀ r ∈ getVaccinationRecommendations d, r.priority ≠ Priority.low := by
  intro r hr
  rw [mem_getRecs, mem_recsBeforeSort] at hr
  rcases hr with ⟨h1, h2, rfl⟩ | ⟨h1, h2, rfl⟩ | ⟨h1, h2, rfl⟩ | ⟨h1, h2, rfl⟩ |
    ⟨h1, h2, rfl⟩ | ⟨h1, rfl⟩ | ⟨h1, rfl⟩ | ⟨h1, rfl⟩ | ⟨h1, h2, h3, rfl⟩ |
    ⟨h1, h2, rfl⟩ | ⟨h1, h2, rfl⟩ | ⟨h1, h2, rfl⟩ | ⟨h1, h2, rfl⟩
  all_goals decide

/-- C8 witness: the Tdap entry of a concrete output is not low priority. -/
theorem no_low_priority_witness : tdapRec.priority ≠ Priority.low :=
  no_low_priority sampleHW tdapRec
    (mem_getRecs.2 (mem_recsBeforeSort.2 (Or.inr (Or.inr (Or.inl ⟨rfl, rfl, rfl⟩)))))

/-- C9: the engine is a pure function of its input record: deep-equal
profiles produce deep-equal (indeed identical) output lists. -/
theorem recommend_deterministic (d1 d2 : VaccinationData) (h : d1 = d2) :
    getVaccinationRecommendations d1 = getVaccinationRecommendations d2 :=
  congrArg getVaccinationRecommendations h

/-- C9 witness at a concrete profile. -/
theorem recommend_deterministic_witness :
    getVaccinationRecommendations sampleHW = getVaccinationRecommendations sampleHW :=
  recommend_deterministic sampleHW sampleHW rfl

/-! ### The form state machine (`VaccinationForm.tsx`) -/

/-- The initial form state (`VaccinationForm.tsx`, lines 54-60). -/
def initialFormData : VaccinationData :=
  { age := "", knownHistory := false, completedVaccines := [], riskFactors := [],
    occupation := "" }

/-- The user interactions the form offers: typing an age, toggling the
known-history box, toggling one vaccine or risk-factor checkbox, choosing
an occupation. -/
inductive FormEvent where
  | setAge (s : String)
  | setKnownHistory (checked : Bool)
  | toggleVaccine (vaccine : String) (checked : Bool)
  | toggleRisk (factor : String) (checked : Bool)
  | setOccupation (s : String)

/-- The state update each handler performs: the age input (line 117), the
known-history box which also clears `completedVaccines` when unchecked
(lines 141-147), `handleVaccineChange` (lines 62-74), `handleRiskFactorChange`
(lines 76-88) and the occupation select (line 217). -/
def stepForm (st : VaccinationData) : FormEvent → VaccinationData
  | FormEvent.setAge s => { st with age := s }
  | FormEvent.setKnownHistory checked =>
      { st with knownHistory := checked,
                completedVaccines := if checked then st.completedVaccines else [] }
  | FormEvent.toggleVaccine vaccine checked =>
      if checked then
        { st with completedVaccines := st.completedVaccines ++ [vaccine] }
      else
        { st with completedVaccines :=
            st.completedVaccines.filter fun v => !(v == vaccine) }
  | FormEvent.toggleRisk factor checked =>
      if checked then
        { st with riskFactors := st.riskFactors ++ [factor] }
      else
        { st with riskFactors := st.riskFactors.filter fun f => !(f == factor) }
  | FormEvent.setOccupation s => { st with occupation := s }

/-- Which events the rendered form can emit in a state: the vaccine
checkboxes exist only while `knownHistory` is checked (line 152 guards that
block with `formData.knownHistory &&`). -/
def enabledForm (st : VaccinationData) : FormEvent → Bool
  | FormEvent.toggleVaccine _ _ => st.knownHistory
  | _ => true

/-- The form states reachable from the initial state through enabled events. -/
inductive ReachableForm : VaccinationData → Prop
  | init : ReachableForm initialFormData
  | next {st : VaccinationData} (h : ReachableForm st) (e : FormEvent)
      (he : enabledForm st e = true) : ReachableForm (stepForm st e)

/-- C10: in every reachable form state, `knownHistory = false` implies the
completed-vaccines list is empty: unchecking the history box clears the
list, and vaccine checkboxes are only offered while the box is checked, so
any profile submitted with `knownHistory = false` carries an empty
`completedVaccines`. -/
theorem form_unknown_history_empty (st : VaccinationData) (h : ReachableForm st) :
    st.knownHistory = false → st.completedVaccines = [] := by
  induction h with
  | init => intro _; rfl
  | next h e he ih =>
      cases e with
      | setAge s => intro hk; exact ih hk
      | setKnownHistory checked =>
          intro hk
          simp only [stepForm] at hk ⊢
          rw [hk]
          simp
      | toggleVaccine vaccine checked =>
          intro hk
          simp only [enabledForm] at he
          cases checked <;> simp only [stepForm] at hk <;> rw [he] at hk <;> cases hk
      | toggleRisk factor checked =>
          intro hk
          cases checked <;> simp only [stepForm] at hk ⊢ <;> exact ih hk
      | setOccupation s => intro hk; exact ih hk

/-- C10 witness: check a vaccine while the history box is on, then uncheck
the box: the reached state has an empty completed-vaccines list. -/
theorem form_unknown_history_empty_witness :
    (stepForm (stepForm (stepForm initialFormData (FormEvent.setKnownHistory true))
        (FormEvent.toggleVaccine "Hepatitis B" true))
      (FormEvent.setKnownHistory false)).completedVaccines = [] :=
  form_unknown_history_empty _
    (ReachableForm.next
      (ReachableForm.next
        (ReachableForm.next ReachableForm.init (FormEvent.setKnownHistory true) rfl)
        (FormEvent.toggleVaccine "Hepatitis B" true) rfl)
      (FormEvent.setKnownHistory false) rfl)
    rfl
